import Mathlib

/-!
Shallow embedding of the smartCart repository.

Source files embedded:
- src/payments.py (the create-payment-intent HTTP endpoint),
- src/recommendItems_mcp.py (parse_query_parameters, recommend_items,
  format_product_results).

Python strings are modelled as Lean String (code points = List Char),
Python floats as exact decimal fractions extended with an infinity
point (PyNum);
Python dynamic values appearing in product records as PyVal; raised
exceptions as Except.  The exact wording of CPython builtin error
messages is approximated (punctuation such as quotes omitted); no
theorem depends on that wording except where the message is produced
by an explicit hypothesis.  The external Supabase client and the Stripe
processor are oracles passed in as function parameters, so that the
control flow of the source (which test-executes the query at each
build stage and catches exceptions per stage) is embedded exactly.
-/

/-! ## Python value model -/

/-- Python float values as used by the repository: every float the code
ever builds comes from a decimal literal, so the value is kept exactly
as mant / 10 ^ exp10 (unnormalized; all arithmetic the code performs on
these values is embedded directly on this representation), together
with the infinity produced by the literal form used at
src/recommendItems_mcp.py line 381. -/
inductive PyNum where
  | fin (mant : Int) (exp10 : Nat)
  | inf
deriving DecidableEq

/-- Python float negation (sign of a parsed literal). -/
def PyNum.neg : PyNum → PyNum
  | .fin m e => .fin (-m) e
  | .inf => .inf

/-- Python comparison with 0 used at src/recommendItems_mcp.py line 168
(price_range[0] > 0); the denominator 10 ^ exp10 is positive, so the
sign is the sign of the mantissa; float infinity compares greater
than 0. -/
def PyNum.gtZero : PyNum → Bool
  | .fin m _ => decide (0 < m)
  | .inf => true

/-- Dynamic Python values stored in a product record coming back from the
database: None, a string, or a number. -/
inductive PyVal where
  | vNone
  | vStr (s : String)
  | vNum (n : PyNum)
deriving DecidableEq

/-- A product record is a Python dict: association list with first-key
lookup (dict keys are unique, so first match is the dict lookup). -/
abbrev ProductRecord := List (String × PyVal)

/-- dict.get(key, default), as used throughout format_product_results:
the value of the first (hence, keys being unique, the only) binding of
the key, or the default. -/
def dget : ProductRecord → String → PyVal → PyVal
  | [], _, dflt => dflt
  | (k, v) :: rest, key, dflt => if k = key then v else dget rest key dflt

/-- Python exceptions raised inside parse_query_parameters. -/
inductive PyErr where
  | nameError (missing : String)
  | typeError (msg : String)
  | valueError (msg : String)
deriving DecidableEq

/-! ## Small text utilities shared by the regex embedding -/

/-- Value of a run of ASCII digits, as Python int() of the matched group. -/
def natOfDigits (ds : List Char) : Nat :=
  ds.foldl (fun n c => n * 10 + (c.toNat - 48)) 0

/-- Value of "ip.fp" as an exact decimal fraction, as Python float() of
the matched group (the repository only ever matches plain decimal
literals). -/
def qOfParts (ip fp : List Char) : PyNum :=
  .fin ((natOfDigits ip : Int) * (10 : Int) ^ fp.length + (natOfDigits fp : Int))
    fp.length

/-- Case-insensitive literal match (the pattern is given in lowercase);
returns the rest of the input after the literal.  This is the semantics
of a literal regex fragment under re.IGNORECASE. -/
def matchCI : List Char → List Char → Option (List Char)
  | [], cs => some cs
  | _ :: _, [] => none
  | p :: ps, c :: cs => if c.toLower = p then matchCI ps cs else none

/-- First alternative of a regex alternation of literals that matches
(the alternatives used in the source start with pairwise distinct
letters, so at most one can match at a given position). -/
def altCI (pats : List String) (cs : List Char) : Option (List Char) :=
  match pats with
  | [] => none
  | p :: ps =>
    match matchCI p.data cs with
    | some r => some r
    | none => altCI ps cs

/-- Python regex \s (ASCII part; the queries involved are ASCII). -/
def isPySpace (c : Char) : Bool :=
  c == ' ' || c == '\t' || c == '\n' || c == '\r' || c == '\x0b' || c == '\x0c'

/-- Greedy \s+ : at least one whitespace character, maximal run.  In every
pattern of the source the fragment after \s+ starts with a
non-whitespace character, so the maximal munch is exact. -/
def ws1 (cs : List Char) : Option (List Char) :=
  match cs with
  | c :: rest => if isPySpace c then some (rest.dropWhile isPySpace) else none
  | [] => none

/-- Greedy \d+ : maximal run of digits and the rest.  In every pattern of
the source the fragment after \d+ cannot match a digit, so the maximal
munch is exact. -/
def digits1 (cs : List Char) : Option (List Char × List Char) :=
  match cs with
  | c :: _ =>
    if c.isDigit then some (cs.takeWhile Char.isDigit, cs.dropWhile Char.isDigit)
    else none
  | [] => none

/-- re.search: try the pattern at every position left to right, first
success wins. -/
def scanLeftmost {α : Type} (f : List Char → Option α) : List Char → Option α
  | [] => f []
  | c :: cs =>
    match f (c :: cs) with
    | some r => some r
    | none => scanLeftmost f cs

/-! ## parse_query_parameters (src/recommendItems_mcp.py lines 346-419) -/

/-- Pattern (?:show|find|get|display)\s+(?:me\s+)?(\d+) at one position
(src line 353-354); returns int(group(1)).  The optional group is tried
greedily first, as the regex engine does. -/
def matchCount1At (cs : List Char) : Option Nat := do
  let r1 ← altCI ["show", "find", "get", "display"] cs
  let r2 ← ws1 r1
  match ((matchCI "me".data r2).bind ws1).bind digits1 with
  | some (ds, _) => some (natOfDigits ds)
  | none => (digits1 r2).map (fun p => natOfDigits p.1)

/-- Pattern (\d+)\s+(?:products|items) at one position (src line 356-357). -/
def matchCount2At (cs : List Char) : Option Nat := do
  let (ds, r1) ← digits1 cs
  let r2 ← ws1 r1
  let _ ← altCI ["products", "items"] r2
  some (natOfDigits ds)

/-- Count extraction, src lines 353-360: first regex, falling back to the
second when the first finds nothing anywhere in the string. -/
def searchCount (q : String) : Option Nat :=
  match scanLeftmost matchCount1At q.data with
  | some n => some n
  | none => scanLeftmost matchCount2At q.data

/-- Pattern under\s+\$?(\d+(?:\.\d+)?) at one position (src lines 364-367);
returns float(group(1)).  A dot not followed by a digit is backtracked
out of the group, as the regex engine does. -/
def matchUnderAt (cs : List Char) : Option PyNum := do
  let r1 ← matchCI "under".data cs
  let r2 ← ws1 r1
  let r3 := match r2 with
    | '$' :: rest => rest
    | _ => r2
  let (ds, r4) ← digits1 r3
  match r4 with
  | '.' :: r5 =>
    match digits1 r5 with
    | some (fs, _) => some (qOfParts ds fs)
    | none => some (qOfParts ds [])
  | _ => some (qOfParts ds [])

/-- The price regex search of src lines 364-367 (both price_max and
price_min are computed from this same pattern). -/
def searchUnder (q : String) : Option PyNum :=
  scanLeftmost matchUnderAt q.data

/-- One anchored re.sub(r'^pat', '', q, re.IGNORECASE): the anchor allows
at most the single occurrence at the start of the string. -/
def subStartCI (pat : String) (cs : List Char) : List Char :=
  match matchCI pat.data cs with
  | some rest => rest
  | none => cs

/-- The pattern \d+\s+(?:products|items) at one position, returning the
rest of the input after the match (used by the global substitution of
src lines 394-395). -/
def matchCountPatAt (cs : List Char) : Option (List Char) := do
  let (_, r1) ← digits1 cs
  let r2 ← ws1 r1
  altCI ["products", "items"] r2

/-- Global re.sub of the count pattern by the empty string.  Fuel equals
the input length: every step either emits one character or consumes at
least one character of the match, so the fuel never runs out. -/
def subAllCountAux : Nat → List Char → List Char
  | 0, cs => cs
  | _ + 1, [] => []
  | fuel + 1, c :: cs =>
    match matchCountPatAt (c :: cs) with
    | some rest => subAllCountAux fuel rest
    | none => c :: subAllCountAux fuel cs

/-- re.sub(r'\d+\s+(?:products|items)', '', q, re.IGNORECASE), src 394-395. -/
def subAllCount (cs : List Char) : List Char :=
  subAllCountAux cs.length cs

/-- The parameter dict built by parse_query_parameters. -/
structure Params where
  topic : String
  price_range : Option (List PyNum)
  count : Option Int
deriving DecidableEq

/-- The try-block body of parse_query_parameters (src lines 348-413),
statement by statement.  Every step up to src line 395 is total, and at
src line 396 the guard reads the name price_match, which is never
defined anywhere in the function (only price_max and price_min are), so
the body raises NameError there on every input; src lines 397-413
(price-pattern stripping, qualifier stripping, whitespace collapse,
topic assignment, return params) are unreachable and are therefore not
part of the embedded body. -/
def parse_body (query : String) : Except PyErr Params :=
  let params : Params := { topic := "", price_range := none, count := none }
  let count_match := searchCount query
  let params := match count_match with
    | some n => { params with count := some (n : Int) }
    | none => params
  let price_max := searchUnder query
  let price_min := searchUnder query
  let params := match price_max, price_min with
    | some mx, some mn =>
      { params with price_range := some [mn, mx] }
    | _, _ => params
  let params := match price_max with
    | some mx => { params with price_range := some [PyNum.fin 0 0, mx] }
    | none => params
  let params := match price_min with
    | some mn => { params with price_range := some [mn, PyNum.inf] }
    | none => params
  let topic_query := query.data
  let topic_query := subStartCI "show me" topic_query
  let topic_query := subStartCI "find me" topic_query
  let topic_query := subStartCI "get me" topic_query
  let topic_query := subStartCI "what are" topic_query
  let topic_query := subStartCI "recommend" topic_query
  let topic_query := match count_match with
    | some _ => subAllCount topic_query
    | none => topic_query
  Except.error (PyErr.nameError "price_match")

/-- parse_query_parameters, src lines 346-419: the try body, with the
catch-all except handler returning the fallback dict
(topic = the original query, price_range = None, count = None).  The
handler itself only logs and returns, so the caller always receives a
normal value, modelled as Except.ok. -/
def parse_query_parameters (query : String) : Except PyErr Params :=
  match parse_body query with
  | .ok p => .ok p
  | .error _ => .ok { topic := query, price_range := none, count := none }

/-! ## Python builtin behavior used by format_product_results -/

/-- Unsigned decimal float literal: digits, digits.digits, digits., or
.digits (exponent, whitespace, and inf/nan forms of Python float() are
omitted: no theorem exercises them). -/
def parseUFloat (cs : List Char) : Option PyNum :=
  match digits1 cs with
  | some (ds, rest) =>
    match rest with
    | [] => some (qOfParts ds [])
    | ['.'] => some (qOfParts ds [])
    | '.' :: r2 =>
      match digits1 r2 with
      | some (fs, []) => some (qOfParts ds fs)
      | _ => none
    | _ => none
  | none =>
    match cs with
    | '.' :: r2 =>
      match digits1 r2 with
      | some (fs, []) => some (qOfParts [] fs)
      | _ => none
    | _ => none

/-- Python float(string): optional sign followed by an unsigned decimal
literal; anything else is a ValueError. -/
def strToFloat (s : String) : Option PyNum :=
  match s.data with
  | '-' :: rest => (parseUFloat rest).map PyNum.neg
  | '+' :: rest => parseUFloat rest
  | cs => parseUFloat cs

/-- Python float(value) on a dynamic value: numbers pass through, strings
are parsed (ValueError when unparsable), None is a TypeError.  Both
error kinds are what the rating handler at src lines 278-281 catches. -/
def pyFloat : PyVal → Except String PyNum
  | .vNum n => .ok n
  | .vStr s =>
    match strToFloat s with
    | some n => .ok n
    | none => .error ("could not convert string to float: " ++ s)
  | .vNone => .error "float() argument must be a string or a real number, not NoneType"

/-- Python str(value) as used by the f-strings of the formatter (the
records exercised by the theorems only ever render strings). -/
def numRepr : PyNum → String
  | .inf => "inf"
  | .fin m e => toString m ++ (if e = 0 then ".0" else "e-" ++ toString e)

/-- Python str() of a dynamic value. -/
def pyStr : PyVal → String
  | .vNone => "None"
  | .vStr s => s
  | .vNum n => numRepr n

/-- Python len(value): defined on strings, TypeError otherwise. -/
def pyLen : PyVal → Except String Nat
  | .vStr s => .ok s.length
  | .vNone => .error "object of type NoneType has no len()"
  | .vNum _ => .error "object of type float has no len()"

/-- Python value[:n] slicing: defined on strings, TypeError otherwise
(this raise inside the first log call of the per-item body, src line
267, is a real failure point of the per-item try). -/
def pySlice : PyVal → Nat → Except String PyVal
  | .vStr s, n => .ok (.vStr (s.take n))
  | .vNone, _ => .error "NoneType object is not subscriptable"
  | .vNum _, _ => .error "float object is not subscriptable"

/-- Python truthiness of the dynamic values in scope. -/
def pyTruthy : PyVal → Bool
  | .vNone => false
  | .vStr s => s != ""
  | .vNum n =>
    match n with
    | .fin m _ => decide (m ≠ 0)
    | .inf => true

/-- Left-pad with zeros to the given width. -/
def padZeros (s : String) (n : Nat) : String :=
  String.mk (List.replicate (n - s.length) '0') ++ s

/-- Python format spec .precf on a float (rounding mode approximated by
half-up; no theorem depends on a rounded digit).  For mant / 10 ^ e the
scaled-and-shifted floor of value * 10 ^ prec + 1 / 2 is the floor
division (2 * mant * 10 ^ prec + 10 ^ e) / (2 * 10 ^ e). -/
def formatFixed (prec : Nat) : PyNum → String
  | .inf => "inf"
  | .fin mant e =>
    let r : Int := Int.fdiv (2 * mant * (10 : Int) ^ prec + (10 : Int) ^ e)
      (2 * (10 : Int) ^ e)
    let sign := if r < 0 then "-" else ""
    let a := r.natAbs
    sign ++ toString (a / 10 ^ prec) ++
      (if prec = 0 then "" else "." ++ padZeros (toString (a % 10 ^ prec)) prec)

/-! ## format_product_results (src/recommendItems_mcp.py lines 252-308) -/

/-- The per-item try body, src lines 265-295, up to the point where the
item text is assembled.  All failure points (the title slice in the log
call at line 267, float(price) at line 271, len(summary) at line 285)
come before any text is appended, so the body is an Except producing
the item text after the "i. " numbering prefix.  The rating block (src
lines 274-281) has its own inner handler and cannot fail. -/
def format_one_body (product : ProductRecord) : Except String String :=
  match pySlice (dget product "title" (.vStr "Unknown")) 20 with
  | .error e => .error e
  | .ok _ =>
    let title := dget product "title" (.vStr "Unknown Product")
    let price := dget product "price" (.vNum (.fin 0 0))
    let pfR : Except String String :=
      if price = PyVal.vNone then .ok "Price not available"
      else
        match pyFloat price with
        | .ok f => .ok ("$" ++ formatFixed 2 f)
        | .error e => .error e
    match pfR with
    | .error e => .error e
    | .ok price_formatted =>
      let rating := dget product "rating" PyVal.vNone
      let rating_text :=
        if rating = PyVal.vNone then ""
        else
          match pyFloat rating with
          | .ok r => " | Rating: " ++ formatFixed 1 r ++ "/5"
          | .error _ => " | Rating: N/A"
      match pyLen title with
      | .error e => .error e
      | .ok n =>
        let summary := if n > 60 then (pyStr title).take 57 ++ "..." else pyStr title
        let image := dget product "image" PyVal.vNone
        let imageLine :=
          if pyTruthy image then "   [Image](" ++ pyStr image ++ ")\n" else ""
        .ok ("**" ++ pyStr title ++ "**\n" ++ "   Summary: " ++ summary ++ "\n" ++
          "   Price: " ++ price_formatted ++ rating_text ++ "\n" ++ imageLine ++ "\n")

/-- One loop iteration of src lines 264-300: the numbered item text, with
the except handler at lines 297-300 replacing a failing item by the
placeholder line and letting the loop continue. -/
def format_one (i : Nat) (product : ProductRecord) : String :=
  toString i ++ ". " ++
    (match format_one_body product with
     | .ok s => s
     | .error _ => "**Error formatting product**\n\n")

/-- The enumerate(products, 1) loop of src line 264, accumulating the
item texts in order. -/
def blocks : Nat → List ProductRecord → String
  | _, [] => ""
  | i, p :: ps => format_one i p ++ blocks (i + 1) ps

/-- format_product_results, src lines 252-308.  The outer try body
consists only of total operations besides the per-item loop, whose
failures are handled per item, so the outer handler at lines 305-308 is
dead in the model. -/
def format_product_results (products : List ProductRecord) (session_id : String) : String :=
  if products.isEmpty then
    "No products found matching your criteria. Session ID: " ++ session_id
  else
    "Here are your recommended products (Session ID: " ++ session_id ++ "):\n\n" ++
      blocks 1 products

/-! ## recommend_items (src/recommendItems_mcp.py lines 74-249) -/

/-- A query filter directive accumulated by the Supabase builder calls. -/
inductive QFilter where
  | ilike (col pat : String)
  | lte (col : String) (v : PyNum)
  | gte (col : String) (v : PyNum)
deriving DecidableEq

/-- The state of the incrementally built Supabase query: table, selected
columns, filters in application order, order clauses in application
order, and the last limit set. -/
structure DbQuery where
  tbl : String
  sel : String
  filters : List QFilter
  orders : List (String × Bool)
  lim : Option Int
deriving DecidableEq

/-- supabase.table(name). -/
def db_table (tbl : String) : DbQuery :=
  { tbl := tbl, sel := "", filters := [], orders := [], lim := none }

/-- .select(columns). -/
def DbQuery.select (q : DbQuery) (cols : String) : DbQuery :=
  { q with sel := cols }

/-- .ilike(column, pattern). -/
def DbQuery.ilike (q : DbQuery) (col pat : String) : DbQuery :=
  { q with filters := q.filters ++ [QFilter.ilike col pat] }

/-- .lte(column, value). -/
def DbQuery.lte (q : DbQuery) (col : String) (v : PyNum) : DbQuery :=
  { q with filters := q.filters ++ [QFilter.lte col v] }

/-- .gte(column, value). -/
def DbQuery.gte (q : DbQuery) (col : String) (v : PyNum) : DbQuery :=
  { q with filters := q.filters ++ [QFilter.gte col v] }

/-- .order(column, desc=flag). -/
def DbQuery.order (q : DbQuery) (col : String) (desc : Bool) : DbQuery :=
  { q with orders := q.orders ++ [(col, desc)] }

/-- .limit(n). -/
def DbQuery.limit (q : DbQuery) (n : Int) : DbQuery :=
  { q with lim := some n }

/-- The object returned by .execute(): the data rows, and the error
attribute checked at src lines 223-225 (its message is modelled as the
string itself). -/
structure DbResponse where
  data : List ProductRecord
  error : Option String
deriving DecidableEq

/-- The connection-test query of src lines 111-112. -/
def conn_test_q : DbQuery :=
  ((db_table "products").select "count").limit 1

/-- The base selection of src lines 125-126. -/
def products_base : DbQuery :=
  (db_table "products").select "productId, title, price, image, link, rating"

/-- The query after the title filter of src line 139. -/
def title_q (topic : String) : DbQuery :=
  products_base.ilike "title" ("%" ++ topic ++ "%")

/-- The price-range block, src lines 151-180: the max-price filter with
its test execution (early-returning its stage error string), then the
min-price filter with its test execution.  Reading price_range[0] when
that element is None raises a TypeError caught only by the outer
handler of src lines 241-244.  Left = a final answer string, right =
the accumulated query to continue with. -/
def price_filter_step (dbexec : DbQuery → Except String DbResponse) (tb : String)
    (price_range : Option (List (Option PyNum))) (q : DbQuery) : Sum String DbQuery :=
  match price_range with
  | some [p0, p1] =>
    let afterMax : Sum String DbQuery :=
      match p1 with
      | some mx =>
        let q1 := q.lte "price" mx
        match dbexec (q1.limit 1) with
        | .error e => .inl ("Error with max price filter: " ++ e)
        | .ok _ => .inr q1
      | none => .inr q
    match afterMax with
    | .inl ans => .inl ans
    | .inr q1 =>
      match p0 with
      | none =>
        .inl ("Error building query: unorderable types: NoneType and int" ++
          "\n\nDetails: " ++ tb)
      | some mn =>
        if mn.gtZero then
          let q2 := q1.gte "price" mn
          match dbexec (q2.limit 1) with
          | .error e => .inl ("Error with min price filter: " ++ e)
          | .ok _ => .inr q2
        else .inr q1
  | _ => .inr q

/-- The ordering block, src lines 182-202: add the rating order and test
it; then add the price order and test it; any failure is logged and
swallowed.  The supabase builder methods mutate the builder and return
self, so the order call at src line 186 already leaves the rating order
on the query object itself: after a failed rating-order test the code
continues WITH the rating order applied (and without the price order);
after a failed price-order test it continues with both orders. -/
def order_step (dbexec : DbQuery → Except String DbResponse) (q : DbQuery) : DbQuery :=
  let qr := q.order "rating" true
  match dbexec (qr.limit 1) with
  | .error _ => qr
  | .ok _ =>
    let qp := qr.order "price" false
    match dbexec (qp.limit 1) with
    | .error _ => qp
    | .ok _ => qp

/-- recommend_items, src lines 74-249.  getclient models
get_supabase_client (raising when credentials are missing, caught by
the outer handler at lines 246-249); dbexec models .execute() on a
built query; tb models the traceback.format_exc() text interpolated
into the two outer error returns.  The log calls are omitted (they only
write to stderr). -/
def recommend_items (getclient : Except String Unit)
    (dbexec : DbQuery → Except String DbResponse) (tb : String)
    (topic : String) (price_range : Option (List (Option PyNum)))
    (count : Option Int) : String :=
  if topic = "" then
    "Error: Topic is required. Please specify what you're looking for."
  else
    let cnt : Int := count.getD 10
    match getclient with
    | .error e => "Error: " ++ e ++ "\n\nDetails: " ++ tb
    | .ok _ =>
      match dbexec conn_test_q with
      | .error e => "Error connecting to database: " ++ e
      | .ok _ =>
        match dbexec (products_base.limit 1) with
        | .error e => "Error with base query: " ++ e
        | .ok _ =>
          match dbexec ((title_q topic).limit 1) with
          | .error e => "Error with title filter: " ++ e
          | .ok _ =>
            match price_filter_step dbexec tb price_range (title_q topic) with
            | .inl ans => ans
            | .inr q =>
              let q := order_step dbexec q
              match dbexec (q.limit cnt) with
              | .error e => "Error building query: " ++ e ++ "\n\nDetails: " ++ tb
              | .ok response =>
                match response.error with
                | some err => "Error querying products: " ++ err
                | none => format_product_results response.data "demo-session"

/-! ## payments.py (src/payments.py lines 31-43) -/

/-- The object returned by stripe.PaymentIntent.create on success. -/
structure StripeIntent where
  client_secret : String
deriving DecidableEq

/-- The HTTP outcome of the endpoint: a 200 body carrying clientSecret,
or an HTTPException with status and detail. -/
inductive PayResp where
  | ok (clientSecret : String)
  | httpError (status : Nat) (detail : String)
deriving DecidableEq

/-- create_payment_intent, src/payments.py lines 31-43, together with the
list of calls made to the processor (in call order), so the absence of
a call on early rejection and the absence of retries are visible in the
result. -/
def create_payment_intent (processor : Int → String → Except String StripeIntent)
    (amount : Int) (currency : String) : PayResp × List (Int × String) :=
  if amount ≤ 0 then
    (PayResp.httpError 400 "Amount must be positive", [])
  else
    match processor amount currency with
    | .ok intent => (PayResp.ok intent.client_secret, [(amount, currency)])
    | .error e => (PayResp.httpError 500 e, [(amount, currency)])

/-! ## Concrete oracles and records used by counterexamples and witnesses -/

/-- A database oracle that fails exactly on the ordering test queries
(an order clause present together with the test limit 1) and succeeds
with an empty result set on everything else, in particular on the final
ordered query executed with the default limit 10. -/
def order_test_fail_db : DbQuery → Except String DbResponse :=
  fun q =>
    if !q.orders.isEmpty && q.lim == some 1 then .error "order failure"
    else .ok { data := [], error := none }

/-- A database oracle that succeeds on the connection-test query (which
selects the count column) and fails on everything else. -/
def base_fail_db : DbQuery → Except String DbResponse :=
  fun q => if q.sel == "count" then .ok { data := [], error := none } else .error "boom"

/-- A record whose price field holds a string that float() cannot parse. -/
def nonNumericPriceRecord : ProductRecord :=
  [("title", PyVal.vStr "Widget"), ("price", PyVal.vStr "abc")]

/-- Well-formatting records surrounding a failing one. -/
def widgetRecord : ProductRecord :=
  [("title", PyVal.vStr "Widget"), ("price", PyVal.vNone)]

/-- Another well-formatting record. -/
def gadgetRecord : ProductRecord :=
  [("title", PyVal.vStr "Gadget"), ("price", PyVal.vNone)]

/-- A record whose price field holds a different unparsable string. -/
def gizmoBadRecord : ProductRecord :=
  [("title", PyVal.vStr "Gizmo"), ("price", PyVal.vStr "not-a-number")]

/-- Whether the needle is a prefix of the hay (character lists). -/
def isPrefixChars : List Char → List Char → Bool
  | [], _ => true
  | _ :: _, [] => false
  | n :: ns, h :: hs => n == h && isPrefixChars ns hs

/-- Whether the needle occurs contiguously anywhere in the hay. -/
def containsSub (needle hay : List Char) : Bool :=
  match hay with
  | [] => isPrefixChars needle []
  | _ :: hs => isPrefixChars needle hay || containsSub needle hs

/-! ## Helper lemmas on strings and blocks -/

/-- Strings with the same character data are equal. -/
theorem str_ext {a b : String} (h : a.data = b.data) : a = b := by
  cases a
  cases b
  exact congrArg String.mk h

/-- Character data of an append. -/
theorem str_data_append (a b : String) : (a ++ b).data = a.data ++ b.data := by
  cases a
  cases b
  rfl

/-- Length of an append. -/
theorem str_length_append (a b : String) : (a ++ b).length = a.length + b.length := by
  cases a
  cases b
  exact List.length_append _ _

/-- The empty string is a left identity of append. -/
theorem str_nil_append (s : String) : "" ++ s = s := by
  cases s
  rfl

/-- String append is associative. -/
theorem str_append_assoc (a b c : String) : a ++ (b ++ c) = a ++ b ++ c := by
  apply str_ext
  simp [str_data_append]

/-- The item loop over an appended list splits at the append, the second
part starting at the shifted index. -/
theorem blocks_append (i : Nat) (l₁ l₂ : List ProductRecord) :
    blocks i (l₁ ++ l₂) = blocks i l₁ ++ blocks (i + l₁.length) l₂ := by
  induction l₁ generalizing i with
  | nil =>
    show blocks i l₂ = "" ++ blocks i l₂
    exact (str_nil_append _).symm
  | cons p ps ih =>
    show format_one i p ++ blocks (i + 1) (ps ++ l₂) =
      (format_one i p ++ blocks (i + 1) ps) ++ blocks (i + (ps.length + 1)) l₂
    rw [ih (i + 1), show i + 1 + ps.length = i + (ps.length + 1) from by omega]
    exact str_append_assoc _ _ _

/-- A failing per-item body renders as the numbered placeholder line. -/
theorem format_one_fail (i : Nat) (p : ProductRecord) (e : String)
    (h : format_one_body p = .error e) :
    format_one i p = toString i ++ ". " ++ "**Error formatting product**\n\n" := by
  simp [format_one, h]

/-! ## Claim theorems -/

/-- Claim C1: the spec example parse("Show me 10 Nike shoes under $150")
= count 10, priceRange [0, 150], topic "Nike shoes" fails on the code:
although the count and price regexes do match this input (first two
conjuncts), the returned parameters are the fallback produced by the
NameError on the undefined name price_match, so count and price_range
are None and topic is the whole unmodified query. -/
theorem parse_nike_query_example :
    searchCount "Show me 10 Nike shoes under $150" = some 10 ∧
    searchUnder "Show me 10 Nike shoes under $150" = some (PyNum.fin 150 0) ∧
    parse_query_parameters "Show me 10 Nike shoes under $150" =
      .ok { topic := "Show me 10 Nike shoes under $150", price_range := none,
            count := none } :=
  ⟨by decide, by decide, rfl⟩

/-- Claim C2: for every input string the try body of
parse_query_parameters raises NameError on the undefined name
price_match, and the returned parameters are exactly topic = the
original query, price_range = None, count = None, so none of the
extraction steps affects the returned value. -/
theorem parse_query_parameters_fallback (query : String) :
    parse_body query = .error (PyErr.nameError "price_match") ∧
    parse_query_parameters query =
      .ok { topic := query, price_range := none, count := none } :=
  ⟨rfl, rfl⟩

/-- Claim C3: an input containing an "under $N" phrase (witnessed by the
price regex matching with value 50) still comes back with
price_range = None, not priceMin = 0 and priceMax = N: the fallback of
the NameError discards the price extraction. -/
theorem parse_under_price_ignored :
    searchUnder "shoes under $50" = some (PyNum.fin 50 0) ∧
    parse_query_parameters "shoes under $50" =
      .ok { topic := "shoes under $50", price_range := none, count := none } :=
  ⟨by decide, rfl⟩

/-- Claim C4: create_payment_intent rejects amount ≤ 0 with HTTP 400 and
an empty processor-call trace; for amount > 0 a processor success
returns the processor-issued secret unchanged with exactly one call,
and a processor error returns HTTP 500 carrying the error message
verbatim, also with exactly one call (no retry). -/
theorem create_payment_intent_spec
    (processor : Int → String → Except String StripeIntent)
    (amount : Int) (currency : String) :
    (amount ≤ 0 →
      create_payment_intent processor amount currency =
        (PayResp.httpError 400 "Amount must be positive", [])) ∧
    (0 < amount → ∀ intent, processor amount currency = .ok intent →
      create_payment_intent processor amount currency =
        (PayResp.ok intent.client_secret, [(amount, currency)])) ∧
    (0 < amount → ∀ e, processor amount currency = .error e →
      create_payment_intent processor amount currency =
        (PayResp.httpError 500 e, [(amount, currency)])) := by
  refine ⟨fun h => ?_, fun h intent hp => ?_, fun h e hp => ?_⟩
  · simp [create_payment_intent, h]
  · simp [create_payment_intent, not_le.mpr h, hp]
  · simp [create_payment_intent, not_le.mpr h, hp]

/-- Witness for C4 at a concrete success: amount 500 with a processor
returning a fixed secret yields HTTP 200 with that secret and one call. -/
theorem create_payment_intent_spec_witness :
    (0 : Int) < 500 ∧
    create_payment_intent (fun _ _ => .ok { client_secret := "sec_123" }) 500 "usd" =
      (PayResp.ok "sec_123", [((500 : Int), "usd")]) :=
  ⟨by decide,
    ((create_payment_intent_spec (fun _ _ => .ok { client_secret := "sec_123" })
      500 "usd").2.1 (by decide)) { client_secret := "sec_123" } rfl⟩

/-- Claim C7: parse_query_parameters never raises to its caller: on every
input it returns a normal value whose optional fields price_range and
count are absent (None) rather than an error. -/
theorem parse_query_parameters_never_raises (query : String) :
    ∃ p : Params, parse_query_parameters query = .ok p ∧
      p.price_range = none ∧ p.count = none :=
  ⟨{ topic := query, price_range := none, count := none }, rfl, rfl, rfl⟩

/-- Counterexample for C5: the ordering-stage test query fails (first
conjunct), that failure is swallowed, and the query the code continues
with carries the rating order but not the price order (second conjunct:
only some of the stages applied); the final execute of that ordered
query succeeds, so recommend_items returns the normal empty-result text
and no error string, refuting the claim that a failure at any stage
(ordering included) aborts the whole query with a stage-naming error. -/
theorem recommend_items_order_fail_counterexample :
    order_test_fail_db (((title_q "shoes").order "rating" true).limit 1) =
      .error "order failure" ∧
    order_step order_test_fail_db (title_q "shoes") =
      (title_q "shoes").order "rating" true ∧
    recommend_items (.ok ()) order_test_fail_db "TB" "shoes" none none =
      "No products found matching your criteria. Session ID: demo-session" :=
  ⟨rfl, rfl, rfl⟩

/-- Claim C5 (amended): a failure of the test query at the
connection-test, base-selection, title-filter, max-price-filter or
min-price-filter stage, or of the final execution, aborts the whole
query and returns an error string naming that stage; a failure of the
first ordering test is swallowed: because the builder mutates in
place, the rating order stays applied (and the price order is never
added), the query continues, and it can still complete normally when
the final execute of the rating-ordered query succeeds. -/
theorem recommend_items_stage_errors
    (dbexec : DbQuery → Except String DbResponse) (tb topic : String)
    (price_range : Option (List (Option PyNum))) (count : Option Int)
    (htopic : topic ≠ "") :
    (∀ e, dbexec conn_test_q = .error e →
      recommend_items (.ok ()) dbexec tb topic price_range count =
        "Error connecting to database: " ++ e) ∧
    (∀ r0 e, dbexec conn_test_q = .ok r0 →
      dbexec (products_base.limit 1) = .error e →
      recommend_items (.ok ()) dbexec tb topic price_range count =
        "Error with base query: " ++ e) ∧
    (∀ r0 r1 e, dbexec conn_test_q = .ok r0 →
      dbexec (products_base.limit 1) = .ok r1 →
      dbexec ((title_q topic).limit 1) = .error e →
      recommend_items (.ok ()) dbexec tb topic price_range count =
        "Error with title filter: " ++ e) ∧
    (∀ r0 r1 r2 p0 mx e, dbexec conn_test_q = .ok r0 →
      dbexec (products_base.limit 1) = .ok r1 →
      dbexec ((title_q topic).limit 1) = .ok r2 →
      price_range = some [p0, some mx] →
      dbexec (((title_q topic).lte "price" mx).limit 1) = .error e →
      recommend_items (.ok ()) dbexec tb topic price_range count =
        "Error with max price filter: " ++ e) ∧
    (∀ r0 r1 r2 mn e, dbexec conn_test_q = .ok r0 →
      dbexec (products_base.limit 1) = .ok r1 →
      dbexec ((title_q topic).limit 1) = .ok r2 →
      price_range = some [some mn, none] →
      mn.gtZero = true →
      dbexec (((title_q topic).gte "price" mn).limit 1) = .error e →
      recommend_items (.ok ()) dbexec tb topic price_range count =
        "Error with min price filter: " ++ e) ∧
    (∀ r0 r1 r2 e ps, dbexec conn_test_q = .ok r0 →
      dbexec (products_base.limit 1) = .ok r1 →
      dbexec ((title_q topic).limit 1) = .ok r2 →
      price_range = none →
      dbexec (((title_q topic).order "rating" true).limit 1) = .error e →
      dbexec (((title_q topic).order "rating" true).limit (count.getD 10)) =
        .ok { data := ps, error := none } →
      recommend_items (.ok ()) dbexec tb topic price_range count =
        format_product_results ps "demo-session") ∧
    (∀ r0 r1 r2 r3 r4 e, dbexec conn_test_q = .ok r0 →
      dbexec (products_base.limit 1) = .ok r1 →
      dbexec ((title_q topic).limit 1) = .ok r2 →
      price_range = none →
      dbexec (((title_q topic).order "rating" true).limit 1) = .ok r3 →
      dbexec ((((title_q topic).order "rating" true).order "price" false).limit 1) =
        .ok r4 →
      dbexec ((((title_q topic).order "rating" true).order "price" false).limit
        (count.getD 10)) = .error e →
      recommend_items (.ok ()) dbexec tb topic price_range count =
        "Error building query: " ++ e ++ "\n\nDetails: " ++ tb) := by
  refine ⟨?_, ?_, ?_, ?_, ?_, ?_, ?_⟩
  · intro e h
    simp [recommend_items, htopic, h]
  · intro r0 e h0 h1
    simp [recommend_items, htopic, h0, h1]
  · intro r0 r1 e h0 h1 h2
    simp [recommend_items, htopic, h0, h1, h2]
  · intro r0 r1 r2 p0 mx e h0 h1 h2 hpr hmax
    subst hpr
    simp [recommend_items, price_filter_step, htopic, h0, h1, h2, hmax]
  · intro r0 r1 r2 mn e h0 h1 h2 hpr hgt hmin
    subst hpr
    simp [recommend_items, price_filter_step, htopic, h0, h1, h2, hgt, hmin]
  · intro r0 r1 r2 e ps h0 h1 h2 hpr ho hf
    subst hpr
    simp [recommend_items, price_filter_step, order_step, htopic, h0, h1, h2, ho, hf]
  · intro r0 r1 r2 r3 r4 e h0 h1 h2 hpr ho1 ho2 hf
    subst hpr
    simp [recommend_items, price_filter_step, order_step, htopic, h0, h1, h2, ho1,
      ho2, hf]

/-- Witness for the amended C5 at a concrete input: an oracle that
succeeds on the connection test and fails on everything else makes the
base-query stage abort with its stage-specific error string. -/
theorem recommend_items_stage_errors_witness :
    recommend_items (.ok ()) base_fail_db "TB" "shoes" none none =
      "Error with base query: boom" :=
  (recommend_items_stage_errors base_fail_db "TB" "shoes" none none
    (by decide)).2.1 { data := [], error := none } "boom" rfl rfl

/-- Claim C10: whenever the oracle succeeds on every query with a clean
response, recommend_items (called with a non-empty topic and a
price_range that cannot raise the None comparison TypeError) returns
the formatter output for the fixed constant session id "demo-session";
the embedding of recommend_items contains no session-record insertion
and no identifier generation, the constant string being the only
session id ever produced. -/
theorem recommend_items_demo_session
    (dbexec : DbQuery → Except String DbResponse) (tb topic : String)
    (price_range : Option (List (Option PyNum))) (count : Option Int)
    (htopic : topic ≠ "")
    (hpr : ∀ p1, price_range ≠ some [none, p1])
    (hok : ∀ q, ∃ l, dbexec q = .ok { data := l, error := none }) :
    ∃ l, recommend_items (.ok ()) dbexec tb topic price_range count =
      format_product_results l "demo-session" := by
  choose f hf using hok
  rcases price_range with _ | ⟨_ | ⟨p0, _ | ⟨p1, _ | ⟨p2, rest⟩⟩⟩⟩
  · simp [recommend_items, price_filter_step, order_step, htopic, hf]
    exact ⟨_, rfl⟩
  · simp [recommend_items, price_filter_step, order_step, htopic, hf]
    exact ⟨_, rfl⟩
  · simp [recommend_items, price_filter_step, order_step, htopic, hf]
    exact ⟨_, rfl⟩
  · rcases p1 with _ | mx
    · rcases p0 with _ | mn
      · exact absurd rfl (hpr none)
      · by_cases hgt : mn.gtZero = true
        · simp [recommend_items, price_filter_step, order_step, htopic, hf, hgt]
          exact ⟨_, rfl⟩
        · simp [recommend_items, price_filter_step, order_step, htopic, hf, hgt]
          exact ⟨_, rfl⟩
    · rcases p0 with _ | mn
      · exact absurd rfl (hpr (some mx))
      · by_cases hgt : mn.gtZero = true
        · simp [recommend_items, price_filter_step, order_step, htopic, hf, hgt]
          exact ⟨_, rfl⟩
        · simp [recommend_items, price_filter_step, order_step, htopic, hf, hgt]
          exact ⟨_, rfl⟩
  · simp [recommend_items, price_filter_step, order_step, htopic, hf]
    exact ⟨_, rfl⟩

/-- Witness for C10 at a concrete input: an always-succeeding empty
oracle yields the formatter output under the "demo-session" id. -/
theorem recommend_items_demo_session_witness :
    ∃ l, recommend_items (.ok ())
        (fun _ => .ok { data := [], error := none }) "TB" "shoes" none none =
      format_product_results l "demo-session" :=
  recommend_items_demo_session (fun _ => .ok { data := [], error := none })
    "TB" "shoes" none none (by decide) (fun _ h => Option.noConfusion h)
    (fun _ => ⟨[], rfl⟩)

/-- Claim C8: a record whose per-item body fails renders as the numbered
placeholder line while every record before and after it is still
rendered at its proper index: a per-item failure never aborts the
listing. -/
theorem format_per_item_isolation (session_id : String)
    (l₁ l₂ : List ProductRecord) (p : ProductRecord) (e : String)
    (hfail : format_one_body p = Except.error e) :
    format_product_results (l₁ ++ p :: l₂) session_id =
      "Here are your recommended products (Session ID: " ++ session_id ++ "):\n\n" ++
        (blocks 1 l₁ ++
          ((toString (l₁.length + 1) ++ ". " ++ "**Error formatting product**\n\n") ++
            blocks (l₁.length + 2) l₂)) := by
  have hne : (l₁ ++ p :: l₂).isEmpty = false := by simp
  rw [show format_product_results (l₁ ++ p :: l₂) session_id =
      "Here are your recommended products (Session ID: " ++ session_id ++ "):\n\n" ++
        blocks 1 (l₁ ++ p :: l₂) from by simp [format_product_results, hne]]
  rw [blocks_append]
  rw [show (1 : Nat) + l₁.length = l₁.length + 1 from by omega]
  rw [show blocks (l₁.length + 1) (p :: l₂) =
      format_one (l₁.length + 1) p ++ blocks (l₁.length + 1 + 1) l₂ from rfl]
  rw [format_one_fail _ _ _ hfail]

/-- Witness for C8 at a concrete input: a failing record between two good
ones renders as placeholder number 2, with records 1 and 3 intact. -/
theorem format_per_item_isolation_witness :
    format_product_results [widgetRecord, gizmoBadRecord, gadgetRecord] "sess" =
      "Here are your recommended products (Session ID: " ++ "sess" ++ "):\n\n" ++
        (blocks 1 [widgetRecord] ++
          ((toString (2 : Nat) ++ ". " ++ "**Error formatting product**\n\n") ++
            blocks 3 [gadgetRecord])) :=
  format_per_item_isolation "sess" [widgetRecord] [gadgetRecord] gizmoBadRecord
    "could not convert string to float: not-a-number" rfl

/-- Claim C9: formatting the empty product list yields exactly the single
"no products found" line carrying the session id (stated as an append,
which exhibits the containment of the id), that line is never the empty
string, and it contains no newline whenever the session id itself
contains none. -/
theorem format_empty_list (session_id : String) :
    format_product_results [] session_id =
      "No products found matching your criteria. Session ID: " ++ session_id ∧
    format_product_results [] session_id ≠ "" ∧
    (session_id.data.all (fun c => c != '\n') = true →
      ((format_product_results [] session_id).data.all (fun c => c != '\n')) = true) := by
  refine ⟨rfl, ?_, ?_⟩
  · intro h
    have h2 := congrArg String.length h
    rw [show format_product_results [] session_id =
        "No products found matching your criteria. Session ID: " ++ session_id
        from rfl, str_length_append] at h2
    have hpos : 0 < ("No products found matching your criteria. Session ID: ").length := by
      decide
    rw [show ("" : String).length = 0 from rfl] at h2
    omega
  · intro hnl
    rw [show format_product_results [] session_id =
        "No products found matching your criteria. Session ID: " ++ session_id
        from rfl, str_data_append, List.all_append, hnl,
      show ("No products found matching your criteria. Session ID: ").data.all
        (fun c => c != '\n') = true from by decide]
    rfl

/-- Witness for C9 at the concrete session id "demo-session". -/
theorem format_empty_list_witness :
    format_product_results [] "demo-session" =
      "No products found matching your criteria. Session ID: " ++ "demo-session" ∧
    format_product_results [] "demo-session" ≠ "" ∧
    ((format_product_results [] "demo-session").data.all (fun c => c != '\n')) = true := by
  have h := format_empty_list "demo-session"
  exact ⟨h.1, h.2.1, h.2.2 (by decide)⟩

/-- Counterexample for C6: a record whose price is the non-numeric string
"abc" is rendered as the whole-record placeholder line, whose text
contains no "available" substring at all, so no "unavailable"-style
marker stands in place of the price. -/
theorem format_nonnumeric_price_counterexample :
    format_product_results [nonNumericPriceRecord] "s1" =
      "Here are your recommended products (Session ID: s1):\n\n1. **Error formatting product**\n\n" ∧
    containsSub "available".data
      (format_product_results [nonNumericPriceRecord] "s1").data = false :=
  ⟨rfl, by decide⟩

/-- Claim C6 (amended): the formatter never aborts on a bad price, but
the explicit "Price not available" marker appears only when the price
field is None; a price holding a string float() cannot parse makes the
whole record render as the "Error formatting product" placeholder line
instead. -/
theorem format_price_fallbacks (session_id t s : String)
    (hs : strToFloat s = none) (ht : t.length ≤ 60) :
    format_product_results [[("title", PyVal.vStr t), ("price", PyVal.vStr s)]]
        session_id =
      "Here are your recommended products (Session ID: " ++ session_id ++ "):\n\n" ++
        "1. **Error formatting product**\n\n" ∧
    format_product_results [[("title", PyVal.vStr t), ("price", PyVal.vNone)]]
        session_id =
      "Here are your recommended products (Session ID: " ++ session_id ++ "):\n\n" ++
        (toString (1 : Nat) ++ ". " ++
          ("**" ++ t ++ "**\n" ++ "   Summary: " ++ t ++ "\n" ++ "   Price: " ++
            "Price not available" ++ "" ++ "\n" ++ "" ++ "\n") ++ "") := by
  refine ⟨?_, ?_⟩
  · have hb : format_one_body [("title", PyVal.vStr t), ("price", PyVal.vStr s)] =
        Except.error ("could not convert string to float: " ++ s) := by
      simp [format_one_body, dget, pySlice, pyFloat, hs]
    show "Here are your recommended products (Session ID: " ++ session_id ++ "):\n\n" ++
        (format_one 1 [("title", PyVal.vStr t), ("price", PyVal.vStr s)] ++ "") = _
    rw [format_one_fail _ _ _ hb]
    exact congrArg (fun r => "Here are your recommended products (Session ID: " ++ session_id ++ "):\n\n" ++ r) rfl
  · have h60 : ¬ (t.length > 60) := by omega
    have hone : format_one 1 [("title", PyVal.vStr t), ("price", PyVal.vNone)] =
        toString (1 : Nat) ++ ". " ++
          ("**" ++ t ++ "**\n" ++ "   Summary: " ++ t ++ "\n" ++ "   Price: " ++
            "Price not available" ++ "" ++ "\n" ++ "" ++ "\n") := by
      simp [format_one, format_one_body, dget, pySlice, pyLen, pyStr, pyTruthy, h60]
    show "Here are your recommended products (Session ID: " ++ session_id ++ "):\n\n" ++
        (format_one 1 [("title", PyVal.vStr t), ("price", PyVal.vNone)] ++ "") = _
    rw [hone]

/-- Witness for the amended C6 at a concrete record pair. -/
theorem format_price_fallbacks_witness :
    format_product_results [[("title", PyVal.vStr "Widget"), ("price", PyVal.vStr "abc")]]
        "s1" =
      "Here are your recommended products (Session ID: " ++ "s1" ++ "):\n\n" ++
        "1. **Error formatting product**\n\n" ∧
    format_product_results [[("title", PyVal.vStr "Widget"), ("price", PyVal.vNone)]]
        "s1" =
      "Here are your recommended products (Session ID: " ++ "s1" ++ "):\n\n" ++
        (toString (1 : Nat) ++ ". " ++
          ("**" ++ "Widget" ++ "**\n" ++ "   Summary: " ++ "Widget" ++ "\n" ++
            "   Price: " ++ "Price not available" ++ "" ++ "\n" ++ "" ++ "\n") ++ "") :=
  format_price_fallbacks "s1" "Widget" "abc" rfl (by decide)
